import Mathlib

/-!
# Verification of the Airbnb MCP server's extraction-and-policy core

Shallow embedding of `src/index.ts`, `src/photoAnalyzer.ts`, `src/photoTools.ts`
and the unnamed photo-variant sources (`src/unnamed/part_000` … `part_003`).

Modelling conventions:
* JavaScript strings are Lean `String`s; `undefined`/absent values are `Option`.
* The embedded JSON data island is modelled as a typed record mirroring exactly
  the object-graph path the source navigates (`JSON.parse` failure and a missing
  or empty script element are constructors of `ScriptData`).
* Network effects are a `World : String → Except String PageDoc` oracle mapping
  request URLs to either a thrown error message or the fetched document; each
  handler additionally reports how many page fetches it performed.
* The external `robots-parser` library is a parameter
  `RobotsLib : String → Option (String → Bool)`: `none` models a parse throw,
  `some f` gives the library's `isAllowed` verdict for the configured user agent.
-/

namespace AirbnbMcp

/-! ## JavaScript string primitives -/

/-- JS `String.prototype.includes` on character lists. -/
def listContainsSub : List Char → List Char → Bool
  | l, pat => pat.isPrefixOf l ||
      (match l with
       | [] => false
       | _ :: t => listContainsSub t pat)

/-- JS `s.includes(pat)`. -/
def jsIncludes (s pat : String) : Bool :=
  listContainsSub s.toList pat.toList

/-- JS `parseInt(s)` (radix 10): skip leading whitespace, optional sign, then
leading decimal digits; `none` models `NaN` (no digits found). -/
def parseIntJS (s : String) : Option Int :=
  let cs := s.toList.dropWhile (fun c => c.isWhitespace)
  let (sign, rest) :=
    match cs with
    | '-' :: t => ((-1 : Int), t)
    | '+' :: t => ((1 : Int), t)
    | t => ((1 : Int), t)
  let digits := rest.takeWhile (fun c => c.isDigit)
  if digits.isEmpty then none
  else some (sign * (digits.foldl (fun acc c => acc * 10 + (c.toNat - 48)) 0 : Nat))

/-- Render an optional JS number: `none` (NaN) prints as `"NaN"`. -/
def jsNumToString : Option Int → String
  | none => "NaN"
  | some i => toString i

/-- JS NaN-propagating addition on optional ints. -/
def jsAdd : Option Int → Option Int → Option Int
  | some a, some b => some (a + b)
  | _, _ => none

/-- JS `x > 0` where `x` may be NaN (`NaN > 0` is false). -/
def jsGtZero : Option Int → Bool
  | some a => decide (0 < a)
  | none => false

/-! ## Base64 (`atob`)

`atob` implements forgiving-base64 decode: strip ASCII whitespace, strip up to
two trailing `=` when the length is a multiple of 4, then fail on a remaining
length of 1 mod 4 or on any character outside the base64 alphabet. -/

/-- Value of one base64 alphabet character, `none` when invalid. -/
def b64Val (c : Char) : Option Nat :=
  if 'A' ≤ c ∧ c ≤ 'Z' then some (c.toNat - 65)
  else if 'a' ≤ c ∧ c ≤ 'z' then some (c.toNat - 97 + 26)
  else if '0' ≤ c ∧ c ≤ '9' then some (c.toNat - 48 + 52)
  else if c = '+' then some 62
  else if c = '/' then some 63
  else none

/-- Decode a list of 6-bit values into bytes (rendered as latin-1 chars). -/
def b64Bytes : List Nat → List Nat
  | a :: b :: c :: d :: rest =>
      (a * 4 + b / 16) :: (b % 16 * 16 + c / 4) :: (c % 4 * 64 + d) :: b64Bytes rest
  | [a, b, c] => [a * 4 + b / 16, b % 16 * 16 + c / 4]
  | [a, b] => [a * 4 + b / 16]
  | [_] => []
  | [] => []

/-- JS `atob`: `none` models the thrown `InvalidCharacterError`. -/
def atob (s : String) : Option String := do
  let cs := s.toList.filter (fun c => ¬ c.isWhitespace)
  let cs :=
    if cs.length % 4 = 0 then
      if cs.reverse.take 2 = ['=', '='] then cs.dropLast.dropLast
      else if cs.reverse.take 1 = ['='] then cs.dropLast
      else cs
    else cs
  if cs.length % 4 = 1 then none
  else do
    let vals ← cs.mapM b64Val
    pure (String.mk ((b64Bytes vals).map Char.ofNat))

/-! ## PolicyGate (`fetchRobotsTxt` / `isPathAllowed`, src/index.ts:264-322) -/

/-- The external `robots-parser` library: content ↦ `none` (a thrown parse
error) or `some isAllowed` for the configured user agent. -/
def RobotsLib : Type := String → Option (String → Bool)

/-- Process state `robotsTxtContent` after `fetchRobotsTxt`
(src/index.ts:266-299): the body on success, `""` on any fetch failure
(non-2xx, abort, connection error) and when the global ignore flag skipped the
fetch. `none` models a failed or skipped fetch. -/
def fetchRobotsTxtState (fetchResult : Option String) : String :=
  fetchResult.getD ""

/-- `isPathAllowed` (src/index.ts:301-322): empty cached content allows all;
a parser throw allows; otherwise the library's verdict. -/
def isPathAllowed (lib : RobotsLib) (robotsTxtContent : String) (path : String) : Bool :=
  if robotsTxtContent = "" then true
  else
    match lib robotsTxtContent with
    | none => true
    | some allowed => allowed path

/-- src/index.ts:263. -/
def robotsErrorMessage : String :=
  "This path is disallowed by Airbnb robots.txt to this User-agent. You may or may not want to run the server with --ignore-robots-txt args"

def BASE_URL : String := "https://www.airbnb.com"

/-! ## The embedded data island, typed along the navigated paths -/

/-- `tile.picture` with `pictureUrls` (src/unnamed/part_000:57). An absent
`pictureUrls` array is modelled as `[]` (both give no index-0 element). -/
structure Picture where
  pictureUrls : List String
deriving Repr, DecidableEq

structure PhotoTile where
  picture : Option Picture
deriving Repr, DecidableEq

/-- `section.structuredDisplayData` (src/unnamed/part_000:55). -/
structure HeroData where
  photoTiles : Option (List PhotoTile)
deriving Repr, DecidableEq

/-- A `primaryLine`/`secondaryLine` of `structuredDisplayPrice`. -/
structure PriceLine where
  accessibilityLabel : Option String := none
  price : Option String := none
deriving Repr, DecidableEq

structure PriceItem where
  description : Option String := none
  priceString : Option String := none
deriving Repr, DecidableEq

structure PriceDetails where
  items : Option (List PriceItem) := none
deriving Repr, DecidableEq

/-- `pricing.explanationData` (src/index.ts:808, 1057-1061). -/
structure ExplanationData where
  title : Option String := none
  priceDetails : Option PriceDetails := none
deriving Repr, DecidableEq

/-- `section.section.structuredDisplayPrice` (src/index.ts:800-811). -/
structure DisplayPrice where
  primaryLine : Option PriceLine := none
  secondaryLine : Option PriceLine := none
  explanationData : Option ExplanationData := none
deriving Repr, DecidableEq

/-- The parts of `section.section` the handlers navigate. Reviews and the
rating block are not further inspected by any claim and stay opaque strings. -/
structure SectionBody where
  structuredDisplayPrice : Option DisplayPrice := none
  structuredDisplayData : Option HeroData := none
  title : Option String := none
  reviews : Option (List String) := none
  reviewDetailsModal : Option String := none
deriving Repr, DecidableEq

/-- One element of `...stayProductDetailPage.sections.sections`; `body` is the
source's `section.section`. -/
structure ListingSection where
  sectionId : Option String := none
  body : Option SectionBody := none
deriving Repr, DecidableEq

/-- `sections.metadata.sharingConfig.mediaItems` element (src/unnamed/part_000:68). -/
structure MediaItem where
  baseUrl : Option String := none
deriving Repr, DecidableEq

/-- `...presentation.stayProductDetailPage`: `sections` is
`sections.sections`, `mediaItems` is `sections.metadata.sharingConfig.mediaItems`
(record nesting with no branching is collapsed). -/
structure PdpBlock where
  sections : Option (List ListingSection) := none
  mediaItems : Option (List MediaItem) := none
deriving Repr, DecidableEq

/-- `result.demandStayListing` of a raw search record (src/index.ts:486). The
other allow-listed fields are never inspected after picking and are elided. -/
structure DemandStayListing where
  id : Option String := none
deriving Repr, DecidableEq

structure SearchRecord where
  demandStayListing : Option DemandStayListing := none
deriving Repr, DecidableEq

/-- `...presentation.staysSearch.results` (src/index.ts:479-489). -/
structure SearchBlock where
  searchResults : Option (List SearchRecord) := none
  paginationInfo : Option String := none
deriving Repr, DecidableEq

/-- `JSON.parse(script).niobeClientData[0][1].data.presentation`, with the
non-branching `data.presentation` prefix collapsed. -/
structure ClientData where
  staysSearch : Option SearchBlock := none
  stayProductDetailPage : Option PdpBlock := none
deriving Repr, DecidableEq

/-- The `#data-deferred-state-0` script element: missing element, empty text,
`JSON.parse` (or `niobeClientData[0][1]`) throwing, or a parsed object. -/
inductive ScriptData where
  | missing : ScriptData
  | empty : ScriptData
  | malformed : ScriptData
  | parsed : ClientData → ScriptData
deriving Repr, DecidableEq

/-- An `<img>` element as the photo scanners see it. -/
structure ImgEl where
  src : Option String := none
  alt : Option String := none
deriving Repr, DecidableEq

/-- A fetched page. -/
structure PageDoc where
  script : ScriptData := ScriptData.missing
  imgs : List ImgEl := []
deriving Repr, DecidableEq

/-- The network: URL ↦ thrown error message (non-2xx / timeout / connection)
or document. Handlers also report how many page fetches they performed. -/
def World : Type := String → Except String PageDoc

/-! ## URL construction (`new URL` + `searchParams.append`) -/

structure UrlT where
  pathname : String
  params : List (String × String)
deriving Repr, DecidableEq

/-- `url.search`: `""` when no params, else `?k=v&…` (percent-encoding of
values is not modelled; no claim depends on it). -/
def UrlT.search (u : UrlT) : String :=
  if u.params.isEmpty then ""
  else "?" ++ String.intercalate "&" (u.params.map (fun p => p.1 ++ "=" ++ p.2))

/-- The robots path: `url.pathname + url.search` (src/index.ts:398 etc.). -/
def UrlT.pathAndSearch (u : UrlT) : String :=
  u.pathname ++ u.search

def UrlT.render (u : UrlT) : String :=
  BASE_URL ++ u.pathAndSearch

/-- `if (v) url.searchParams.append(k, v)` for a string value (JS `""` is
falsy). -/
def optStrParam (k : String) (v : Option String) : List (String × String) :=
  match v with
  | some s => if s = "" then [] else [(k, s)]
  | none => []

/-- `if (v) url.searchParams.append(k, v.toString())` for a numeric value
(JS `0` is falsy). -/
def optNumParam (k : String) (v : Option Int) : List (String × String) :=
  match v with
  | some n => if n = 0 then [] else [(k, toString n)]
  | none => []

/-- The shared guest-parameter block (src/index.ts:379-390, 561-572, 749-760,
992-1003): coerce each count with `parseInt(x.toString())`, and append all
four parameters exactly when `adults_int + children_int > 0`. Inputs are the
JS string renderings of the received values. -/
def guestParams (adults children infants pets : String) : List (String × String) :=
  let a := parseIntJS adults
  let c := parseIntJS children
  let i := parseIntJS infants
  let p := parseIntJS pets
  if jsGtZero (jsAdd a c) then
    [("adults", jsNumToString a), ("children", jsNumToString c),
     ("infants", jsNumToString i), ("pets", jsNumToString p)]
  else []

/-- JS `a || b` on optional strings (`""` and `undefined` are falsy). -/
def jsOrStr (a b : Option String) : Option String :=
  match a with
  | some s => if s = "" then b else some s
  | none => b

/-! ## `handleAirbnbSearch` (src/index.ts:357-542) -/

structure SearchParams where
  location : String
  placeId : Option String := none
  checkin : Option String := none
  checkout : Option String := none
  adults : String := "1"
  children : String := "0"
  infants : String := "0"
  pets : String := "0"
  minPrice : Option Int := none
  maxPrice : Option Int := none
  cursor : Option String := none
  ignoreRobotsText : Bool := false

/-- The search URL (src/index.ts:373-396). `encodeURIComponent(location)` is
modelled as the location string itself. -/
def searchUrl (p : SearchParams) : UrlT :=
  { pathname := "/s/" ++ p.location ++ "/homes",
    params :=
      optStrParam "place_id" p.placeId ++
      optStrParam "checkin" p.checkin ++
      optStrParam "checkout" p.checkout ++
      guestParams p.adults p.children p.infants p.pets ++
      optNumParam "price_min" p.minPrice ++
      optNumParam "price_max" p.maxPrice ++
      optStrParam "cursor" p.cursor }

/-- The record shape built at src/index.ts:485-488. `record` stands for the
spread `...result` (post allow-list picking; `pickBySchema` from the absent
util.ts retains the enumerated `demandStayListing` subtree per the spec's
allow-list contract, so the picked record is modelled by `SearchRecord`
itself). -/
structure SearchOutRecord where
  id : Option String
  url : String
  record : SearchRecord
deriving Repr, DecidableEq

/-- JS `String.prototype.split(sep)` on character lists (structural, so that
proofs can evaluate it). -/
def splitOnChar (sep : Char) : List Char → List (List Char)
  | [] => [[]]
  | c :: t =>
      let r := splitOnChar sep t
      if c = sep then [] :: r
      else
        match r with
        | [] => [[c]]
        | h :: t2 => (c :: h) :: t2

/-- JS `s.split(sep)` for a one-character separator. -/
def jsSplit (s : String) (sep : Char) : List String :=
  (splitOnChar sep s.toList).map (fun l => String.mk l)

/-- `const id = atob(result.demandStayListing.id).split(":")[1]`
(src/index.ts:486-487). Reading `.id` of an absent `demandStayListing` throws
a TypeError; `atob` of an invalid string (including `"undefined"` for an
absent id) throws; both are modelled as `Except.error`. A missing `":"`
delimiter leaves `id` undefined and renders `"undefined"` into the URL. -/
def deriveSearchRecord (r : SearchRecord) : Except String SearchOutRecord :=
  match r.demandStayListing with
  | none => Except.error "TypeError: Cannot read properties of undefined (reading id)"
  | some d =>
      match atob (d.id.getD "undefined") with
      | none => Except.error "InvalidCharacterError: Invalid base64 string"
      | some decoded =>
          let id := (jsSplit decoded ':').get? 1
          Except.ok { id := id, url := BASE_URL ++ "/rooms/" ++ id.getD "undefined", record := r }

/-- The `.map` over `results.searchResults` (src/index.ts:483-488): a throw
for any single record aborts the whole map. -/
def deriveAll : List SearchRecord → Except String (List SearchOutRecord)
  | [] => Except.ok []
  | r :: t =>
      match deriveSearchRecord r with
      | Except.error e => Except.error e
      | Except.ok v =>
          match deriveAll t with
          | Except.error e => Except.error e
          | Except.ok vs => Except.ok (v :: vs)

/-- The inner parse block of `handleAirbnbSearch` (src/index.ts:467-494):
locate the script, parse, navigate to `staysSearch.results`, map every record
through `deriveSearchRecord` (a throw for any single record aborts the whole
`.map` and lands in the catch). `cleanObject` (absent util.ts; per spec it
only prunes null leaves) is modelled as the identity. -/
def parseSearchDoc (doc : PageDoc) : Except String (List SearchOutRecord × Option String) :=
  match doc.script with
  | ScriptData.missing => Except.error "Could not find data script element - page structure may have changed"
  | ScriptData.empty => Except.error "Data script element is empty"
  | ScriptData.malformed => Except.error "JSON parse error"
  | ScriptData.parsed c =>
      match c.staysSearch with
      | none => Except.error "TypeError: Cannot read properties of undefined (reading results)"
      | some block =>
          match block.searchResults with
          | none => Except.error "TypeError: Cannot read properties of undefined (reading map)"
          | some rs =>
              match deriveAll rs with
              | Except.error e => Except.error e
              | Except.ok outs => Except.ok (outs, block.paginationInfo)

structure SearchOutcome where
  isError : Bool
  fetches : Nat
  searchUrl : String
  results : List SearchOutRecord := []
  paginationInfo : Option String := none
  errorMsg : Option String := none
deriving Repr, DecidableEq

def handleAirbnbSearch (lib : RobotsLib) (robotsTxtContent : String) (world : World)
    (p : SearchParams) : SearchOutcome :=
  let url := searchUrl p
  let path := url.pathAndSearch
  if ¬ p.ignoreRobotsText ∧ ¬ isPathAllowed lib robotsTxtContent path then
    { isError := true, fetches := 0, searchUrl := url.render,
      errorMsg := some robotsErrorMessage }
  else
    match world url.render with
    | Except.error e =>
        { isError := true, fetches := 1, searchUrl := url.render, errorMsg := some e }
    | Except.ok doc =>
        match parseSearchDoc doc with
        | Except.error e =>
            { isError := true, fetches := 1, searchUrl := url.render,
              errorMsg := some ("Failed to parse search results from Airbnb. The page structure may have changed. " ++ e) }
        | Except.ok (outs, pag) =>
            { isError := false, fetches := 1, searchUrl := url.render,
              results := outs, paginationInfo := pag }

/-! ## `handleAirbnbListingDetails` (src/index.ts:544-713) -/

structure ListingParams where
  id : String
  checkin : Option String := none
  checkout : Option String := none
  adults : String := "1"
  children : String := "0"
  infants : String := "0"
  pets : String := "0"
  ignoreRobotsText : Bool := false

/-- The listing URL with `check_in`/`check_out` and guest params
(src/index.ts:556-572; identically at 744-760 and 987-1003). -/
def listingUrl (id : String) (checkin checkout : Option String)
    (adults children infants pets : String) : UrlT :=
  { pathname := "/rooms/" ++ id,
    params :=
      optStrParam "check_in" checkin ++
      optStrParam "check_out" checkout ++
      guestParams adults children infants pets }

/-- Navigation shared by the listing-page handlers
(`clientData.data.presentation.stayProductDetailPage.sections.sections`,
src/index.ts:647-648, 788-789, 907-908, 1046-1047): any missing step throws
into the handler's parse catch. -/
def pdpSections (doc : PageDoc) : Except String (List ListingSection) :=
  match doc.script with
  | ScriptData.missing => Except.error "Could not find data script element"
  | ScriptData.empty => Except.error "Data script element is empty"
  | ScriptData.malformed => Except.error "JSON parse error"
  | ScriptData.parsed c =>
      match c.stayProductDetailPage with
      | none => Except.error "TypeError: Cannot read properties of undefined (reading sections)"
      | some pdp =>
          match pdp.sections with
          | none => Except.error "TypeError: Cannot read properties of undefined (reading sections)"
          | some l => Except.ok l

/-- `allowSectionSchema`'s keys (src/index.ts:590-625). -/
def allowSectionIds : List String :=
  ["LOCATION_DEFAULT", "POLICIES_DEFAULT", "HIGHLIGHTS_DEFAULT",
   "DESCRIPTION_DEFAULT", "AMENITIES_DEFAULT"]

structure DetailsOutcome where
  isError : Bool
  fetches : Nat
  listingUrl : String
  details : List (String × Option SectionBody) := []
  errorMsg : Option String := none

/-- src/index.ts:544-713. The per-section allow-list pick (absent util.ts;
spec: retain only enumerated fields) is modelled as keeping the section body;
no claim inspects the picked content. -/
def handleAirbnbListingDetails (lib : RobotsLib) (robotsTxtContent : String)
    (world : World) (p : ListingParams) : DetailsOutcome :=
  let url := listingUrl p.id p.checkin p.checkout p.adults p.children p.infants p.pets
  let path := url.pathAndSearch
  if ¬ p.ignoreRobotsText ∧ ¬ isPathAllowed lib robotsTxtContent path then
    { isError := true, fetches := 0, listingUrl := url.render,
      errorMsg := some robotsErrorMessage }
  else
    match world url.render with
    | Except.error e =>
        { isError := true, fetches := 1, listingUrl := url.render, errorMsg := some e }
    | Except.ok doc =>
        match pdpSections doc with
        | Except.error e =>
            { isError := true, fetches := 1, listingUrl := url.render,
              errorMsg := some ("Failed to parse listing details from Airbnb. The page structure may have changed. " ++ e) }
        | Except.ok sections =>
            { isError := false, fetches := 1, listingUrl := url.render,
              details :=
                (sections.filter (fun s => (s.sectionId.map (allowSectionIds.contains ·)).getD false)).map
                  (fun s => (s.sectionId.getD "undefined", s.body)) }

/-! ## `handlePriceComparison` (src/index.ts:715-858) -/

structure DateRange where
  checkin : Option String := none
  checkout : Option String := none
deriving Repr, DecidableEq

structure CompareParams where
  id : String
  dateRanges : Option (List DateRange) := none
  adults : String := "1"
  children : String := "0"
  infants : String := "0"
  pets : String := "0"
  ignoreRobotsText : Bool := false

/-- One entry of `priceComparisons`. -/
structure PriceRecord where
  checkin : Option String := none
  checkout : Option String := none
  url : String := ""
  error : Option String := none
  displayPrice : Option String := none
  priceDetails : Option String := none
  breakdown : Option ExplanationData := none
deriving Repr, DecidableEq

/-- The pricing-section scan of `handlePriceComparison` (src/index.ts:799-812):
each section carrying `structuredDisplayPrice` overwrites the fields that its
sub-objects provide (assignments are guarded by the presence of
`primaryLine` / `secondaryLine` / `explanationData`). -/
def applyPricing (acc : PriceRecord) (s : ListingSection) : PriceRecord :=
  match s.body with
  | none => acc
  | some b =>
      match b.structuredDisplayPrice with
      | none => acc
      | some pricing =>
          let acc :=
            match pricing.primaryLine with
            | none => acc
            | some pl => { acc with displayPrice := jsOrStr pl.accessibilityLabel pl.price }
          let acc :=
            match pricing.secondaryLine with
            | none => acc
            | some sl => { acc with priceDetails := sl.accessibilityLabel }
          match pricing.explanationData with
          | none => acc
          | some ed => { acc with breakdown := some ed }

/-- The body of the `for (const range of dateRanges)` loop
(src/index.ts:743-823), returning the record pushed for this range together
with the number of page fetches it performed. -/
def compareRange (lib : RobotsLib) (robotsTxtContent : String) (world : World)
    (id : String) (adults children infants pets : String) (ignoreRobotsText : Bool)
    (range : DateRange) : PriceRecord × Nat :=
  let url := listingUrl id range.checkin range.checkout adults children infants pets
  let path := url.pathAndSearch
  if ¬ ignoreRobotsText ∧ ¬ isPathAllowed lib robotsTxtContent path then
    ({ checkin := range.checkin, checkout := range.checkout,
       error := some robotsErrorMessage, url := url.render }, 0)
  else
    match world url.render with
    | Except.error e =>
        ({ checkin := range.checkin, checkout := range.checkout,
           error := some e, url := url.render }, 1)
    | Except.ok doc =>
        match pdpSections doc with
        | Except.error e =>
            ({ checkin := range.checkin, checkout := range.checkout,
               error := some e, url := url.render }, 1)
        | Except.ok sections =>
            (sections.foldl applyPricing
              { checkin := range.checkin, checkout := range.checkout, url := url.render }, 1)

structure CompareOutcome where
  isError : Bool
  fetches : Nat
  listingId : String := ""
  comparisons : List PriceRecord := []
  errorMsg : Option String := none
deriving Repr, DecidableEq

/-- src/index.ts:715-858. `dateRanges = none` models a missing or non-array
value. Ranges are processed sequentially; every range contributes exactly one
pushed record, and the envelope built at src/index.ts:830-839 carries
`isError: false`. -/
def handlePriceComparison (lib : RobotsLib) (robotsTxtContent : String)
    (world : World) (p : CompareParams) : CompareOutcome :=
  match p.dateRanges with
  | none =>
      { isError := true, fetches := 0,
        errorMsg := some "dateRanges must be a non-empty array" }
  | some [] =>
      { isError := true, fetches := 0,
        errorMsg := some "dateRanges must be a non-empty array" }
  | some ranges =>
      let items := ranges.map
        (compareRange lib robotsTxtContent world p.id p.adults p.children p.infants p.pets p.ignoreRobotsText)
      { isError := false, fetches := (items.map Prod.snd).sum,
        listingId := p.id, comparisons := items.map Prod.fst }

/-! ## `handleReviews` (src/index.ts:860-973) -/

structure ReviewsParams where
  id : String
  ignoreRobotsText : Bool := false

structure ReviewsSectionOut where
  title : Option String
  reviews : List String
deriving Repr, DecidableEq

structure ReviewsOutcome where
  isError : Bool
  fetches : Nat
  listingUrl : String
  reviewsSection : Option ReviewsSectionOut := none
  overallRating : Option String := none
  errorMsg : Option String := none
deriving Repr, DecidableEq

def handleReviews (lib : RobotsLib) (robotsTxtContent : String) (world : World)
    (p : ReviewsParams) : ReviewsOutcome :=
  let url : UrlT := { pathname := "/rooms/" ++ p.id, params := [] }
  let path := url.pathAndSearch
  if ¬ p.ignoreRobotsText ∧ ¬ isPathAllowed lib robotsTxtContent path then
    { isError := true, fetches := 0, listingUrl := url.render,
      errorMsg := some robotsErrorMessage }
  else
    match world url.render with
    | Except.error e =>
        { isError := true, fetches := 1, listingUrl := url.render, errorMsg := some e }
    | Except.ok doc =>
        match pdpSections doc with
        | Except.error e =>
            { isError := true, fetches := 1, listingUrl := url.render,
              errorMsg := some ("Failed to parse reviews from Airbnb. The page structure may have changed. " ++ e) }
        | Except.ok sections =>
            let st := sections.foldl
              (fun (acc : Option ReviewsSectionOut × Option String) s =>
                let acc :=
                  if s.sectionId = some "REVIEWS_DEFAULT" ∧ s.body.isSome then
                    ((s.body.map (fun b => ⟨b.title, b.reviews.getD []⟩) : Option ReviewsSectionOut), acc.2)
                  else acc
                match s.body with
                | none => acc
                | some b =>
                    match b.reviewDetailsModal with
                    | none => acc
                    | some m => (acc.1, some m))
              (none, none)
            { isError := false, fetches := 1, listingUrl := url.render,
              reviewsSection := st.1, overallRating := st.2 }

/-! ## `handleCostBreakdown` (src/index.ts:975-1111) -/

structure CostParams where
  id : String
  checkin : Option String := none
  checkout : Option String := none
  adults : String := "1"
  children : String := "0"
  infants : String := "0"
  pets : String := "0"
  ignoreRobotsText : Bool := false

structure CostBreakdownOut where
  title : Option String
  items : List PriceItem
deriving Repr, DecidableEq

structure CostOutcome where
  isError : Bool
  fetches : Nat
  listingUrl : String
  displayPrice : Option String := none
  priceDetails : Option String := none
  breakdown : Option CostBreakdownOut := none
  errorMsg : Option String := none
deriving Repr, DecidableEq

/-- The cost-scan loop body (src/index.ts:1050-1064): unlike the comparison
loop, `displayPrice`/`priceDetails` are assigned unconditionally (via optional
chaining) for every section carrying `structuredDisplayPrice`. -/
def applyCost (acc : Option String × Option String × Option CostBreakdownOut)
    (s : ListingSection) : Option String × Option String × Option CostBreakdownOut :=
  match s.body with
  | none => acc
  | some b =>
      match b.structuredDisplayPrice with
      | none => acc
      | some pricing =>
          let dp := jsOrStr (pricing.primaryLine.bind PriceLine.accessibilityLabel)
                           (pricing.primaryLine.bind PriceLine.price)
          let pd := pricing.secondaryLine.bind PriceLine.accessibilityLabel
          let bd :=
            match pricing.explanationData with
            | none => acc.2.2
            | some ed =>
                some { title := ed.title,
                       items := ((ed.priceDetails.bind PriceDetails.items)).getD [] }
          (dp, pd, bd)

def handleCostBreakdown (lib : RobotsLib) (robotsTxtContent : String)
    (world : World) (p : CostParams) : CostOutcome :=
  let url := listingUrl p.id p.checkin p.checkout p.adults p.children p.infants p.pets
  let path := url.pathAndSearch
  if ¬ p.ignoreRobotsText ∧ ¬ isPathAllowed lib robotsTxtContent path then
    { isError := true, fetches := 0, listingUrl := url.render,
      errorMsg := some robotsErrorMessage }
  else
    match world url.render with
    | Except.error e =>
        { isError := true, fetches := 1, listingUrl := url.render, errorMsg := some e }
    | Except.ok doc =>
        match pdpSections doc with
        | Except.error e =>
            { isError := true, fetches := 1, listingUrl := url.render,
              errorMsg := some ("Failed to parse cost breakdown from Airbnb. The page structure may have changed. " ++ e) }
        | Except.ok sections =>
            let st := sections.foldl applyCost (none, none, none)
            { isError := false, fetches := 1, listingUrl := url.render,
              displayPrice := st.1, priceDetails := st.2.1, breakdown := st.2.2 }

/-! ## Photo extraction -/

/-- The shared result record of every `extractListingPhotos` variant. -/
structure PhotoResult where
  listingId : String
  photoUrls : List String
  photoCount : Nat
  extractionSuccess : Bool
  error : Option String := none
deriving Repr, DecidableEq

/-- The img-scan loop of src/photoAnalyzer.ts:17-23: the cheerio selector
`img[src*="airbnb"]` keeps elements whose `src` attribute exists and contains
`"airbnb"`; the body then requires alt text containing `"photo"` and fewer
than 50 collected URLs before a deduplicated push of the raw `src`. -/
def basicScanStep (acc : List String) (img : ImgEl) : List String :=
  match img.src with
  | none => acc
  | some src =>
      if jsIncludes src "airbnb" then
        if (match img.alt with | some a => jsIncludes a "photo" | none => false)
            && decide (acc.length < 50) then
          if acc.contains src then acc else acc ++ [src]
        else acc
      else acc

/-- `extractListingPhotos` of src/photoAnalyzer.ts:4-42: fetch (no policy
gate), scan img tags; any throw (HTTP error / network) returns the zeroed
error record. The second component counts page fetches performed. -/
def extractListingPhotosBasic (world : World) (listingId : String) : PhotoResult × Nat :=
  let url := BASE_URL ++ "/rooms/" ++ listingId
  match world url with
  | Except.error e =>
      ({ listingId := listingId, photoUrls := [], photoCount := 0,
         extractionSuccess := false, error := some e }, 1)
  | Except.ok doc =>
      let photoUrls := doc.imgs.foldl basicScanStep []
      ({ listingId := listingId, photoUrls := photoUrls,
         photoCount := photoUrls.length,
         extractionSuccess := decide (0 < photoUrls.length) }, 1)

/-- Dedup push of the structured pass (src/unnamed/part_000:59-61, 73-75). -/
def structuredStep (acc : List String) (u : String) : List String :=
  if acc.contains u then acc else acc ++ [u]

/-- `tile.picture?.pictureUrls?.[0]` candidates of the HERO section
(src/unnamed/part_000:54-64); a falsy (empty) URL is skipped by the `if`. -/
def heroTileUrls (sections : List ListingSection) : List String :=
  match sections.find? (fun s => s.sectionId = some "HERO_DEFAULT") with
  | none => []
  | some hs =>
      match hs.body with
      | none => []
      | some b =>
          match b.structuredDisplayData with
          | none => []
          | some hd =>
              (hd.photoTiles.getD []).filterMap (fun t =>
                match t.picture with
                | none => none
                | some pic =>
                    match pic.pictureUrls.head? with
                    | none => none
                    | some u => if u = "" then none else some u)

/-- `item.baseUrl` candidates of `mediaItems` (src/unnamed/part_000:67-78);
a falsy (empty) URL is skipped. -/
def mediaItemUrls (pdp : PdpBlock) : List String :=
  (pdp.mediaItems.getD []).filterMap (fun m =>
    match m.baseUrl with
    | none => none
    | some u => if u = "" then none else some u)

/-- The structured pass of src/unnamed/part_000:40-84: optional-chained
navigation (no throw), both candidate sources pushed through the shared
dedup list, tiles first. A missing/empty script or a JSON parse throw (caught
at line 81) leaves the list empty. -/
def structuredPhotos (doc : PageDoc) : List String :=
  match doc.script with
  | ScriptData.parsed c =>
      match c.stayProductDetailPage with
      | none => []
      | some pdp =>
          let fromTiles :=
            match pdp.sections with
            | some l => heroTileUrls l
            | none => []
          (fromTiles ++ mediaItemUrls pdp).foldl structuredStep []
  | _ => []

/-- `src.split('?')[0]` (src/unnamed/part_000:92): the prefix before the
first `'?'`. -/
def cleanUrl (s : String) : String :=
  String.mk (s.toList.takeWhile (fun ch => ch != '?'))

/-- JS `s.toLowerCase()` (ASCII range suffices for the extension test). -/
def jsToLower (s : String) : String :=
  String.mk (s.toList.map Char.toLower)

/-- `cleanUrl.match(/\.(jpg|jpeg|png|webp)/i)` (src/unnamed/part_000:93). -/
def matchesExt (s : String) : Bool :=
  let t := jsToLower s
  jsIncludes t ".jpg" || jsIncludes t ".jpeg" || jsIncludes t ".png" || jsIncludes t ".webp"

/-- The string-level body of the fallback img loop
(src/unnamed/part_000:88-97): marker filter and 50-cap on the raw `src`,
query-string strip, then dedup/extension-checked push of the cleaned URL. -/
def normStep (acc : List String) (src : String) : List String :=
  if jsIncludes src "airbnb" ∧ acc.length < 50 then
    let c := cleanUrl src
    if ¬ acc.contains c ∧ matchesExt c then acc ++ [c] else acc
  else acc

/-- The fallback normalization over a raw URL list. -/
def normalizePhotoUrls (srcs : List String) : List String :=
  srcs.foldl normStep []

/-- One fallback-scan step over an `<img>` element (absent `src` is skipped). -/
def fallbackStep (acc : List String) (img : ImgEl) : List String :=
  match img.src with
  | none => acc
  | some src => normStep acc src

/-- `extractListingPhotos` of src/unnamed/part_000:4-117: optional policy
gate (consulted only when neither ignore flag is set and a gate was passed),
fetch, structured pass, then the img fallback only when the structured list
is empty. -/
def extractListingPhotosFull (gate : Option (String → Bool))
    (ignoreRobotsTxt : Bool) (ignoreFlag : Bool) (world : World)
    (listingId : String) : PhotoResult × Nat :=
  let url := BASE_URL ++ "/rooms/" ++ listingId
  let path := "/rooms/" ++ listingId
  if !ignoreRobotsTxt && !ignoreFlag && (match gate with
      | some f => !f path
      | none => false) then
    ({ listingId := listingId, photoUrls := [], photoCount := 0,
       extractionSuccess := false,
       error := some "Path disallowed by robots.txt" }, 0)
  else
    match world url with
    | Except.error e =>
        ({ listingId := listingId, photoUrls := [], photoCount := 0,
           extractionSuccess := false, error := some e }, 1)
    | Except.ok doc =>
        let photoUrls := structuredPhotos doc
        let photoUrls :=
          if photoUrls.isEmpty then doc.imgs.foldl fallbackStep photoUrls
          else photoUrls
        ({ listingId := listingId, photoUrls := photoUrls,
           photoCount := photoUrls.length,
           extractionSuccess := decide (0 < photoUrls.length) }, 1)

/-- `formatPhotosForAnalysis` (src/unnamed/part_000:119-122). -/
def formatPhotosForAnalysis (photos : PhotoResult) : String :=
  let photoList := String.intercalate "\n"
    ((photos.photoUrls.enum.map (fun p => "Photo " ++ toString (p.1 + 1) ++ ": " ++ p.2)))
  "Listing " ++ photos.listingId ++ "\n" ++ photoList

/-! ## `handlePhotoAnalysisTool` -/

structure PhotoToolInput where
  id : Option String := none
  ignoreRobotsTxt : Option Bool := none

structure PhotoEnvelope where
  isError : Bool
  fetches : Nat
  success : Option Bool := none
  photoCount : Option Nat := none
  photoUrls : Option (List String) := none
  analysisPrompt : Option String := none
  errorMsg : Option String := none
deriving Repr, DecidableEq

/-- `handlePhotoAnalysisTool` of src/unnamed/part_003:30-92, which feeds the
gate and flags into part_000's extractor. `isError` on both tool branches is
`!photos.extractionSuccess` (lines 61 and 78). -/
def handlePhotoAnalysisToolFull (toolName : String) (input : PhotoToolInput)
    (gate : Option (String → Bool)) (ignoreFlag : Bool) (world : World) : PhotoEnvelope :=
  match input.id with
  | none =>
      { isError := true, fetches := 0, errorMsg := some "Listing ID required" }
  | some lid =>
      if lid = "" then
        { isError := true, fetches := 0, errorMsg := some "Listing ID required" }
      else
        let ignore := input.ignoreRobotsTxt.getD false
        let photos := (extractListingPhotosFull gate ignore ignoreFlag world lid).1
        let n := (extractListingPhotosFull gate ignore ignoreFlag world lid).2
        if toolName = "getListingPhotos" then
          { isError := !photos.extractionSuccess, fetches := n,
            success := some photos.extractionSuccess,
            photoCount := some photos.photoCount,
            photoUrls := some photos.photoUrls }
        else if toolName = "analyzeListingPhotos" then
          { isError := !photos.extractionSuccess, fetches := n,
            success := some photos.extractionSuccess,
            photoCount := some photos.photoCount,
            analysisPrompt := some (formatPhotosForAnalysis photos),
            photoUrls := some photos.photoUrls }
        else
          { isError := true, fetches := n, errorMsg := some ("Unknown tool: " ++ toolName) }

/-- `handlePhotoAnalysisTool` of src/photoTools.ts:28-83, wired to the
gate-free extractor of src/photoAnalyzer.ts. `isError` on both tool branches
is `!photos.extractionSuccess` (lines 52 and 69). -/
def handlePhotoAnalysisToolBasic (toolName : String) (input : PhotoToolInput)
    (world : World) : PhotoEnvelope :=
  match input.id with
  | none =>
      { isError := true, fetches := 0, errorMsg := some "Listing ID required" }
  | some lid =>
      if lid = "" then
        { isError := true, fetches := 0, errorMsg := some "Listing ID required" }
      else
        let photos := (extractListingPhotosBasic world lid).1
        let n := (extractListingPhotosBasic world lid).2
        if toolName = "getListingPhotos" then
          { isError := !photos.extractionSuccess, fetches := n,
            success := some photos.extractionSuccess,
            photoCount := some photos.photoCount,
            photoUrls := some photos.photoUrls }
        else if toolName = "analyzeListingPhotos" then
          { isError := !photos.extractionSuccess, fetches := n,
            success := some photos.extractionSuccess,
            photoCount := some photos.photoCount,
            analysisPrompt := some (formatPhotosForAnalysis photos),
            photoUrls := some photos.photoUrls }
        else
          { isError := true, fetches := n, errorMsg := some ("Unknown tool: " ++ toolName) }

/-! ## Helper lemmas -/

lemma contains_false_not_mem {l : List String} {a : String}
    (h : l.contains a = false) : a ∉ l := by
  simp [List.elem_iff] at h; exact h

/-- A fold whose step either keeps the accumulator or appends one fresh
element preserves `Nodup`. -/
lemma foldl_nodup {β : Type} (s : List String → β → List String)
    (h : ∀ acc x, s acc x = acc ∨ ∃ u, u ∉ acc ∧ s acc x = acc ++ [u]) :
    ∀ (l : List β) (acc : List String), acc.Nodup → (l.foldl s acc).Nodup := by
  intro l
  induction l with
  | nil => intro acc hacc; simpa using hacc
  | cons x t ih =>
      intro acc hacc
      rcases h acc x with heq | ⟨u, hu, heq⟩
      · simpa [heq] using ih acc hacc
      · have : (acc ++ [u]).Nodup := by simp [List.nodup_append, hacc, hu]
        simpa [heq] using ih (acc ++ [u]) this

/-- A fold whose step appends (one element) only below the cap keeps the
length at most the cap. -/
lemma foldl_length_le {β : Type} (s : List String → β → List String) (cap : Nat)
    (h : ∀ acc x, s acc x = acc ∨ (acc.length < cap ∧ ∃ u, s acc x = acc ++ [u])) :
    ∀ (l : List β) (acc : List String), acc.length ≤ cap →
      (l.foldl s acc).length ≤ cap := by
  intro l
  induction l with
  | nil => intro acc hacc; simpa using hacc
  | cons x t ih =>
      intro acc hacc
      rcases h acc x with heq | ⟨hlt, u, heq⟩
      · simpa [heq] using ih acc hacc
      · have : (acc ++ [u]).length ≤ cap := by simpa using hlt
        simpa [heq] using ih (acc ++ [u]) this

lemma structuredStep_shape (acc : List String) (u : String) :
    structuredStep acc u = acc ∨ ∃ v, v ∉ acc ∧ structuredStep acc u = acc ++ [v] := by
  unfold structuredStep
  split
  · left; rfl
  · next h => exact Or.inr ⟨u, by simpa [List.elem_iff] using h, rfl⟩

lemma normStep_shape (acc : List String) (src : String) :
    normStep acc src = acc ∨
      ∃ v, v ∉ acc ∧ acc.length < 50 ∧ normStep acc src = acc ++ [v] := by
  unfold normStep
  simp only []
  split
  · next h1 =>
      split
      · next h2 => exact Or.inr ⟨cleanUrl src, by simpa [List.elem_iff] using h2.1, h1.2, rfl⟩
      · left; rfl
  · left; rfl

lemma fallbackStep_shape (acc : List String) (img : ImgEl) :
    fallbackStep acc img = acc ∨
      ∃ v, v ∉ acc ∧ acc.length < 50 ∧ fallbackStep acc img = acc ++ [v] := by
  unfold fallbackStep
  rcases img with ⟨src?, alt?⟩
  cases src? with
  | none => left; rfl
  | some src => exact normStep_shape acc src

lemma basicScanStep_shape (acc : List String) (img : ImgEl) :
    basicScanStep acc img = acc ∨
      ∃ v, v ∉ acc ∧ acc.length < 50 ∧ basicScanStep acc img = acc ++ [v] := by
  unfold basicScanStep
  rcases img with ⟨src?, alt?⟩
  cases src? with
  | none => left; rfl
  | some src =>
      dsimp only
      split
      · split
        · next h2 =>
            rw [Bool.and_eq_true, decide_eq_true_iff] at h2
            split
            · left; rfl
            · next h3 => exact Or.inr ⟨src, by simpa [List.elem_iff] using h3, h2.2, rfl⟩
        · left; rfl
      · left; rfl

lemma extractBasic_spec (world : World) (lid : String) :
    (extractListingPhotosBasic world lid).1.photoCount
        = (extractListingPhotosBasic world lid).1.photoUrls.length ∧
      ((extractListingPhotosBasic world lid).1.extractionSuccess = true ↔
        0 < (extractListingPhotosBasic world lid).1.photoUrls.length) := by
  unfold extractListingPhotosBasic
  cases h : world (BASE_URL ++ "/rooms/" ++ lid) with
  | error e => simp [h]
  | ok doc => simp [h, decide_eq_true_iff]

lemma extractFull_spec (gate : Option (String → Bool)) (ign ignFlag : Bool)
    (world : World) (lid : String) :
    (extractListingPhotosFull gate ign ignFlag world lid).1.photoCount
        = (extractListingPhotosFull gate ign ignFlag world lid).1.photoUrls.length ∧
      ((extractListingPhotosFull gate ign ignFlag world lid).1.extractionSuccess = true ↔
        0 < (extractListingPhotosFull gate ign ignFlag world lid).1.photoUrls.length) := by
  unfold extractListingPhotosFull
  simp only []
  split
  · simp
  · cases h : world (BASE_URL ++ "/rooms/" ++ lid) with
    | error e => simp [h]
    | ok doc => simp [h, decide_eq_true_iff]

/-- C9: every record returned by `extractListingPhotos` — on the policy-denied,
fetch-error, structured and fallback return paths of both variants — satisfies
`photoCount = photoUrls.length`, and `extractionSuccess` is true iff
`photoCount > 0`. -/
theorem photoResult_invariant (world : World) (lid : String)
    (gate : Option (String → Bool)) (ign ignFlag : Bool) :
    ((extractListingPhotosBasic world lid).1.photoCount
        = (extractListingPhotosBasic world lid).1.photoUrls.length ∧
      ((extractListingPhotosBasic world lid).1.extractionSuccess = true ↔
        0 < (extractListingPhotosBasic world lid).1.photoCount)) ∧
    ((extractListingPhotosFull gate ign ignFlag world lid).1.photoCount
        = (extractListingPhotosFull gate ign ignFlag world lid).1.photoUrls.length ∧
      ((extractListingPhotosFull gate ign ignFlag world lid).1.extractionSuccess = true ↔
        0 < (extractListingPhotosFull gate ign ignFlag world lid).1.photoCount)) := by
  refine ⟨⟨(extractBasic_spec world lid).1, ?_⟩, ⟨(extractFull_spec gate ign ignFlag world lid).1, ?_⟩⟩
  · rw [(extractBasic_spec world lid).1]; exact (extractBasic_spec world lid).2
  · rw [(extractFull_spec gate ign ignFlag world lid).1]
    exact (extractFull_spec gate ign ignFlag world lid).2

/-- C6: when fetching the permission document failed (state `""`) or parsing a
non-empty document throws, the policy gate allows every path (fail-open). -/
theorem policyGate_fail_open (lib : RobotsLib) (path content : String)
    (fetchResult : Option String) :
    (fetchResult = none → isPathAllowed lib (fetchRobotsTxtState fetchResult) path = true) ∧
    (lib content = none → isPathAllowed lib content path = true) := by
  constructor
  · rintro rfl
    simp [fetchRobotsTxtState, isPathAllowed]
  · intro h
    unfold isPathAllowed
    split
    · rfl
    · simp [h]

/-- Witness for C6 at a concrete failed fetch and a concrete throwing parser. -/
theorem policyGate_fail_open_witness :
    isPathAllowed (fun _ => none) (fetchRobotsTxtState none) "/rooms/1" = true ∧
    isPathAllowed (fun _ => none) "User-agent: *" "/rooms/1" = true :=
  ⟨(policyGate_fail_open (fun _ => none) "/rooms/1" "User-agent: *" none).1 rfl,
   (policyGate_fail_open (fun _ => none) "/rooms/1" "User-agent: *" none).2 rfl⟩

/-- C10: the price-comparison envelope is an error iff `dateRanges` is missing,
not an array, or empty; with a non-empty range list it is `isError = false`
for every network/policy behaviour (`world`, `lib`, `content` universally
quantified, so in particular when every per-range record is an error record). -/
theorem compare_envelope_isError_iff (lib : RobotsLib) (content : String)
    (world : World) (p : CompareParams) :
    (handlePriceComparison lib content world p).isError = true ↔
      (p.dateRanges = none ∨ p.dateRanges = some []) := by
  unfold handlePriceComparison
  rcases h : p.dateRanges with _ | (_ | ⟨r, t⟩) <;> simp [h]

lemma applyPricing_preserves (acc : PriceRecord) (s : ListingSection) :
    (applyPricing acc s).checkin = acc.checkin ∧
    (applyPricing acc s).checkout = acc.checkout ∧
    (applyPricing acc s).url = acc.url ∧
    (applyPricing acc s).error = acc.error := by
  unfold applyPricing
  rcases s with ⟨sid, body⟩
  rcases body with _ | ⟨sdp, sdd, tt, rv, rdm⟩
  · simp
  · rcases sdp with _ | ⟨pl, sl, ed⟩
    · simp
    · rcases pl with _ | pl <;> rcases sl with _ | sl <;> rcases ed with _ | ed <;> simp

lemma foldl_applyPricing_preserves (sections : List ListingSection) :
    ∀ acc : PriceRecord,
      (sections.foldl applyPricing acc).checkin = acc.checkin ∧
      (sections.foldl applyPricing acc).checkout = acc.checkout ∧
      (sections.foldl applyPricing acc).url = acc.url ∧
      (sections.foldl applyPricing acc).error = acc.error := by
  induction sections with
  | nil => intro acc; simp
  | cons s t ih =>
      intro acc
      have h := applyPricing_preserves acc s
      have h2 := ih (applyPricing acc s)
      simp only [List.foldl_cons]
      exact ⟨h2.1.trans h.1, (h2.2.1).trans h.2.1, (h2.2.2.1).trans h.2.2.1,
        (h2.2.2.2).trans h.2.2.2⟩

lemma compareRange_spec (lib : RobotsLib) (content : String) (world : World)
    (id a c i pe : String) (ign : Bool) (range : DateRange) :
    ((compareRange lib content world id a c i pe ign range).1.checkin = range.checkin) ∧
    ((compareRange lib content world id a c i pe ign range).1.checkout = range.checkout) ∧
    ((compareRange lib content world id a c i pe ign range).1.url
        = (listingUrl id range.checkin range.checkout a c i pe).render) ∧
    ((ign = false ∧ isPathAllowed lib content
        (listingUrl id range.checkin range.checkout a c i pe).pathAndSearch = false) →
      (compareRange lib content world id a c i pe ign range).1.error
          = some robotsErrorMessage ∧
      (compareRange lib content world id a c i pe ign range).2 = 0) ∧
    (∀ e, (ign = true ∨ isPathAllowed lib content
        (listingUrl id range.checkin range.checkout a c i pe).pathAndSearch = true) →
      world (listingUrl id range.checkin range.checkout a c i pe).render = Except.error e →
      (compareRange lib content world id a c i pe ign range).1.error = some e) ∧
    (∀ doc e, (ign = true ∨ isPathAllowed lib content
        (listingUrl id range.checkin range.checkout a c i pe).pathAndSearch = true) →
      world (listingUrl id range.checkin range.checkout a c i pe).render = Except.ok doc →
      pdpSections doc = Except.error e →
      (compareRange lib content world id a c i pe ign range).1.error = some e) := by
  unfold compareRange
  simp only []
  split
  · next hden =>
      refine ⟨rfl, rfl, rfl, fun _ => ⟨rfl, rfl⟩, ?_, ?_⟩
      · intro e hallow
        rcases hden with ⟨hi, hp⟩
        rcases hallow with h | h
        · exact absurd h (by simpa using hi)
        · exact absurd h (by simp [hp])
      · intro doc e hallow
        rcases hden with ⟨hi, hp⟩
        rcases hallow with h | h
        · exact absurd h (by simpa using hi)
        · exact absurd h (by simp [hp])
  · next hden =>
      cases hw : world (listingUrl id range.checkin range.checkout a c i pe).render with
      | error e =>
          simp only [hw]
          refine ⟨trivial, trivial, trivial, ?_, ?_, ?_⟩
          · exact fun hd => absurd ⟨by simp [hd.1], by simp [hd.2]⟩ hden
          · intro e1 _ he
            injection he with h
            rw [h]
          · intro doc e1 _ he _
            simp at he
      | ok doc =>
          simp only [hw]
          cases hp : pdpSections doc with
          | error e2 =>
              simp only [hp]
              refine ⟨trivial, trivial, trivial, ?_, ?_, ?_⟩
              · exact fun hd => absurd ⟨by simp [hd.1], by simp [hd.2]⟩ hden
              · intro e1 _ he
                simp at he
              · intro doc1 e1 _ hdoc hp2
                injection hdoc with h
                subst h
                rw [hp] at hp2
                injection hp2 with h2
                rw [h2]
          | ok sections =>
              simp only [hp]
              have hpres := foldl_applyPricing_preserves sections
                { checkin := range.checkin, checkout := range.checkout,
                  url := (listingUrl id range.checkin range.checkout a c i pe).render }
              refine ⟨hpres.1, hpres.2.1, hpres.2.2.1, ?_, ?_, ?_⟩
              · exact fun hd => absurd ⟨by simp [hd.1], by simp [hd.2]⟩ hden
              · intro e1 _ he
                simp at he
              · intro doc1 e1 _ hdoc hp2
                injection hdoc with h
                subst h
                rw [hp] at hp2
                simp at hp2

/-- C5: with a non-empty list of N date ranges, the price-comparison result has
exactly N records, in input order; each record carries its range's checkin,
checkout and attempted URL, a policy-denied or failing range contributes an
error record in place of a price record, and one range's failure never aborts
the others. -/
theorem comparePrices_per_range (lib : RobotsLib) (content : String) (world : World)
    (p : CompareParams) (ranges : List DateRange)
    (hdr : p.dateRanges = some ranges) (hne : ranges ≠ []) :
    (handlePriceComparison lib content world p).comparisons.length = ranges.length ∧
    (∀ i, (hi : i < ranges.length) →
      ∃ hic : i < (handlePriceComparison lib content world p).comparisons.length,
        (((handlePriceComparison lib content world p).comparisons.get ⟨i, hic⟩).checkin
            = (ranges.get ⟨i, hi⟩).checkin) ∧
        (((handlePriceComparison lib content world p).comparisons.get ⟨i, hic⟩).checkout
            = (ranges.get ⟨i, hi⟩).checkout) ∧
        (((handlePriceComparison lib content world p).comparisons.get ⟨i, hic⟩).url
            = (listingUrl p.id (ranges.get ⟨i, hi⟩).checkin (ranges.get ⟨i, hi⟩).checkout
                p.adults p.children p.infants p.pets).render) ∧
        ((p.ignoreRobotsText = false ∧ isPathAllowed lib content
            (listingUrl p.id (ranges.get ⟨i, hi⟩).checkin (ranges.get ⟨i, hi⟩).checkout
              p.adults p.children p.infants p.pets).pathAndSearch = false) →
          ((handlePriceComparison lib content world p).comparisons.get ⟨i, hic⟩).error
              = some robotsErrorMessage) ∧
        (∀ e, (p.ignoreRobotsText = true ∨ isPathAllowed lib content
            (listingUrl p.id (ranges.get ⟨i, hi⟩).checkin (ranges.get ⟨i, hi⟩).checkout
              p.adults p.children p.infants p.pets).pathAndSearch = true) →
          world (listingUrl p.id (ranges.get ⟨i, hi⟩).checkin (ranges.get ⟨i, hi⟩).checkout
              p.adults p.children p.infants p.pets).render = Except.error e →
          ((handlePriceComparison lib content world p).comparisons.get ⟨i, hic⟩).error
              = some e) ∧
        (∀ doc e, (p.ignoreRobotsText = true ∨ isPathAllowed lib content
            (listingUrl p.id (ranges.get ⟨i, hi⟩).checkin (ranges.get ⟨i, hi⟩).checkout
              p.adults p.children p.infants p.pets).pathAndSearch = true) →
          world (listingUrl p.id (ranges.get ⟨i, hi⟩).checkin (ranges.get ⟨i, hi⟩).checkout
              p.adults p.children p.infants p.pets).render = Except.ok doc →
          pdpSections doc = Except.error e →
          ((handlePriceComparison lib content world p).comparisons.get ⟨i, hic⟩).error
              = some e)) := by
  have hcomp : (handlePriceComparison lib content world p).comparisons
      = ranges.map (fun r => (compareRange lib content world p.id p.adults p.children
          p.infants p.pets p.ignoreRobotsText r).1) := by
    unfold handlePriceComparison
    cases ranges with
    | nil => exact absurd rfl hne
    | cons r t => simp [hdr]
  have hlen : (handlePriceComparison lib content world p).comparisons.length
      = ranges.length := by simp [hcomp]
  refine ⟨hlen, ?_⟩
  intro i hi
  have hic : i < (handlePriceComparison lib content world p).comparisons.length := by
    rw [hlen]; exact hi
  refine ⟨hic, ?_⟩
  have hget : (handlePriceComparison lib content world p).comparisons.get ⟨i, hic⟩
      = (compareRange lib content world p.id p.adults p.children p.infants p.pets
          p.ignoreRobotsText (ranges.get ⟨i, hi⟩)).1 := by
    have := List.get_of_eq hcomp ⟨i, hic⟩
    rw [this]
    simp [List.get_map]
  rw [hget]
  have hs := compareRange_spec lib content world p.id p.adults p.children p.infants p.pets
    p.ignoreRobotsText (ranges.get ⟨i, hi⟩)
  exact ⟨hs.1, hs.2.1, hs.2.2.1,
    fun hd => (hs.2.2.2.1 hd).1, hs.2.2.2.2.1, hs.2.2.2.2.2⟩

/-- Witness for C5: three concrete date ranges where the second one's fetch
times out — three records come back, in order, the middle one an error
record. -/
theorem comparePrices_per_range_witness :
    (let world : World := fun u =>
        if u = (listingUrl "42" (some "c") (some "d") "1" "0" "0" "0").render
        then Except.error "Request timeout after 30000ms"
        else Except.ok
          { script := ScriptData.parsed
              { stayProductDetailPage := some
                  { sections := some [], mediaItems := none },
                staysSearch := none },
            imgs := [] }
     let p : CompareParams :=
       { id := "42",
         dateRanges := some [⟨some "a", some "b"⟩, ⟨some "c", some "d"⟩,
           ⟨some "e", some "f"⟩] }
     (handlePriceComparison (fun _ => none) "" world p).comparisons.length = 3 ∧
     ((handlePriceComparison (fun _ => none) "" world p).comparisons.map PriceRecord.error)
        = [none, some "Request timeout after 30000ms", none]) := by
  refine ⟨?_, by decide⟩
  exact (comparePrices_per_range (fun _ => none) "" _ _
    [⟨some "a", some "b"⟩, ⟨some "c", some "d"⟩, ⟨some "e", some "f"⟩]
    rfl (by decide)).1


/-- C1 counterexample: a photo tool call whose extraction yields zero photo
URLs (data island absent, no matching img tags, no exception raised) returns
a Failure envelope (`isError = true`) carrying the empty list — not a
Success envelope. This holds for both `getListingPhotos` and
`analyzeListingPhotos` and for both handler variants. -/
theorem photo_empty_isError_counterexample :
    ((handlePhotoAnalysisToolFull "getListingPhotos" ⟨some "123", none⟩ none false
        (fun _ => Except.ok ⟨ScriptData.missing, []⟩)).isError = true) ∧
    ((handlePhotoAnalysisToolFull "getListingPhotos" ⟨some "123", none⟩ none false
        (fun _ => Except.ok ⟨ScriptData.missing, []⟩)).photoUrls = some []) ∧
    ((handlePhotoAnalysisToolFull "analyzeListingPhotos" ⟨some "123", none⟩ none false
        (fun _ => Except.ok ⟨ScriptData.missing, []⟩)).isError = true) ∧
    ((handlePhotoAnalysisToolBasic "getListingPhotos" ⟨some "123", none⟩
        (fun _ => Except.ok ⟨ScriptData.missing, []⟩)).isError = true) := by
  decide

/-- C1 (amended): for every photo-kind tool call whose extraction yields zero
photo URLs, the returned envelope is a FAILURE (`isError = true`) — not a
Success — whose payload still carries `success = false` and the empty photo
list; this holds for both handler variants. -/
theorem photo_empty_envelope (toolName : String) (input : PhotoToolInput)
    (lid : String) (gate : Option (String → Bool)) (ignoreFlag : Bool) (world : World)
    (hname : toolName = "getListingPhotos" ∨ toolName = "analyzeListingPhotos")
    (hid : input.id = some lid) (hlid : ¬ lid = "") :
    ((extractListingPhotosBasic world lid).1.photoUrls = [] →
      (handlePhotoAnalysisToolBasic toolName input world).isError = true ∧
      (handlePhotoAnalysisToolBasic toolName input world).photoUrls = some [] ∧
      (handlePhotoAnalysisToolBasic toolName input world).success = some false) ∧
    ((extractListingPhotosFull gate (input.ignoreRobotsTxt.getD false) ignoreFlag
        world lid).1.photoUrls = [] →
      (handlePhotoAnalysisToolFull toolName input gate ignoreFlag world).isError = true ∧
      (handlePhotoAnalysisToolFull toolName input gate ignoreFlag world).photoUrls = some [] ∧
      (handlePhotoAnalysisToolFull toolName input gate ignoreFlag world).success = some false) := by
  constructor
  · intro hempty
    have hsucc : (extractListingPhotosBasic world lid).1.extractionSuccess = false := by
      cases h : (extractListingPhotosBasic world lid).1.extractionSuccess
      · rfl
      · exact absurd ((extractBasic_spec world lid).2.mp h) (by simp [hempty])
    unfold handlePhotoAnalysisToolBasic
    simp only [hid]
    rw [if_neg hlid]
    rcases hname with h | h <;> subst h
    · simp [hempty, hsucc]
    · rw [if_neg (by decide), if_pos rfl]
      simp [hempty, hsucc]
  · intro hempty
    have hsucc : (extractListingPhotosFull gate (input.ignoreRobotsTxt.getD false)
        ignoreFlag world lid).1.extractionSuccess = false := by
      cases h : (extractListingPhotosFull gate (input.ignoreRobotsTxt.getD false)
          ignoreFlag world lid).1.extractionSuccess
      · rfl
      · exact absurd ((extractFull_spec gate (input.ignoreRobotsTxt.getD false)
            ignoreFlag world lid).2.mp h) (by simp [hempty])
    unfold handlePhotoAnalysisToolFull
    simp only [hid]
    rw [if_neg hlid]
    rcases hname with h | h <;> subst h
    · simp [hempty, hsucc]
    · rw [if_neg (by decide), if_pos rfl]
      simp [hempty, hsucc]


/-- Witness for the amended C1 at a concrete empty-extraction call. -/
theorem photo_empty_envelope_witness :
    ((extractListingPhotosBasic (fun _ => Except.ok ⟨ScriptData.missing, []⟩)
        "99").1.photoUrls = []) ∧
    ((handlePhotoAnalysisToolBasic "getListingPhotos" ⟨some "99", none⟩
        (fun _ => Except.ok ⟨ScriptData.missing, []⟩)).isError = true ∧
      (handlePhotoAnalysisToolBasic "getListingPhotos" ⟨some "99", none⟩
        (fun _ => Except.ok ⟨ScriptData.missing, []⟩)).photoUrls = some [] ∧
      (handlePhotoAnalysisToolBasic "getListingPhotos" ⟨some "99", none⟩
        (fun _ => Except.ok ⟨ScriptData.missing, []⟩)).success = some false) :=
  ⟨by decide,
    (photo_empty_envelope "getListingPhotos" ⟨some "99", none⟩ "99" none false
      (fun _ => Except.ok ⟨ScriptData.missing, []⟩) (Or.inl rfl) rfl
      (by decide)).1 (by decide)⟩


lemma deriveAll_error (rs : List SearchRecord)
    (hbad : ∃ r ∈ rs, r.demandStayListing = none ∨
        ∃ d, r.demandStayListing = some d ∧ atob (d.id.getD "undefined") = none) :
    ∃ e, deriveAll rs = Except.error e := by
  induction rs with
  | nil => rcases hbad with ⟨r, hr, _⟩; cases hr
  | cons a t ih =>
      rcases hbad with ⟨r, hr, hcase⟩
      rcases List.mem_cons.mp hr with rfl | hmem
      · rcases hcase with hnone | ⟨d, hd, hatob⟩
        · exact ⟨"TypeError: Cannot read properties of undefined (reading id)",
            by simp [deriveAll, deriveSearchRecord, hnone]⟩
        · exact ⟨"InvalidCharacterError: Invalid base64 string",
            by simp [deriveAll, deriveSearchRecord, hd, hatob]⟩
      · cases hda : deriveSearchRecord a with
        | error e => exact ⟨e, by simp [deriveAll, hda]⟩
        | ok v =>
            rcases ih ⟨r, hmem, hcase⟩ with ⟨e, he⟩
            exact ⟨e, by simp [deriveAll, hda, he]⟩

/-- C2 counterexample: a search page whose embedded data parses into two
results, the second with a corrupt base64 identifier, makes the whole search
call return a Failure (`isError = true`) with no results at all — the claimed
per-record skip/null does not happen.  Dropping the corrupt record makes the
same call succeed, so the one bad identifier aborts the whole batch. -/
theorem search_decode_abort_counterexample :
    (let doc : PageDoc :=
       { script := ScriptData.parsed
           { staysSearch := some
               { searchResults := some
                   [⟨some ⟨some "bGlzdGluZzox"⟩⟩, ⟨some ⟨some "!!!"⟩⟩],
                 paginationInfo := none },
             stayProductDetailPage := none },
         imgs := [] }
     let good : PageDoc :=
       { script := ScriptData.parsed
           { staysSearch := some
               { searchResults := some [⟨some ⟨some "bGlzdGluZzox"⟩⟩],
                 paginationInfo := none },
             stayProductDetailPage := none },
         imgs := [] }
     ((handleAirbnbSearch (fun _ => none) "" (fun _ => Except.ok doc)
        { location := "NYC" }).isError = true ∧
      (handleAirbnbSearch (fun _ => none) "" (fun _ => Except.ok doc)
        { location := "NYC" }).results = []) ∧
     ((handleAirbnbSearch (fun _ => none) "" (fun _ => Except.ok good)
        { location := "NYC" }).isError = false ∧
      ((handleAirbnbSearch (fun _ => none) "" (fun _ => Except.ok good)
        { location := "NYC" }).results.map SearchOutRecord.id) = [some "1"])) := by
  decide

/-- C2 (amended): when the search page's embedded data parses into a result
list containing at least one record whose identifier container is absent or
whose identifier fails base64 decoding, the whole search call returns a
Failure outcome (`isError = true`) with no results — the failing record is
not skipped or nulled individually. -/
theorem search_decode_failure_aborts (lib : RobotsLib) (content : String)
    (world : World) (p : SearchParams) (doc : PageDoc) (c : ClientData)
    (block : SearchBlock) (rs : List SearchRecord)
    (hallow : isPathAllowed lib content (searchUrl p).pathAndSearch = true)
    (hdoc : world (searchUrl p).render = Except.ok doc)
    (hscript : doc.script = ScriptData.parsed c)
    (hblock : c.staysSearch = some block)
    (hrs : block.searchResults = some rs)
    (hbad : ∃ r ∈ rs, r.demandStayListing = none ∨
        ∃ d, r.demandStayListing = some d ∧ atob (d.id.getD "undefined") = none) :
    (handleAirbnbSearch lib content world p).isError = true ∧
    (handleAirbnbSearch lib content world p).results = [] := by
  rcases deriveAll_error rs hbad with ⟨e, he⟩
  have hparse : parseSearchDoc doc = Except.error e := by
    unfold parseSearchDoc
    simp only [hscript, hblock, hrs, he]
  unfold handleAirbnbSearch
  rw [if_neg (by simp [hallow])]
  simp only [hdoc, hparse]
  constructor <;> trivial

/-- Witness for the amended C2 at a concrete document with one good and one
corrupt search record. -/
theorem search_decode_failure_aborts_witness :
    (let doc : PageDoc :=
       { script := ScriptData.parsed
           { staysSearch := some
               { searchResults := some
                   [⟨some ⟨some "bGlzdGluZzo5ODc2NQ=="⟩⟩, ⟨none⟩],
                 paginationInfo := none },
             stayProductDetailPage := none },
         imgs := [] }
     (handleAirbnbSearch (fun _ => none) "" (fun _ => Except.ok doc)
        { location := "Paris" }).isError = true ∧
     (handleAirbnbSearch (fun _ => none) "" (fun _ => Except.ok doc)
        { location := "Paris" }).results = []) := by
  exact search_decode_failure_aborts (fun _ => none) "" _ _ _
    { staysSearch := some
        { searchResults := some [⟨some ⟨some "bGlzdGluZzo5ODc2NQ=="⟩⟩, ⟨none⟩],
          paginationInfo := none },
      stayProductDetailPage := none }
    { searchResults := some [⟨some ⟨some "bGlzdGluZzo5ODc2NQ=="⟩⟩, ⟨none⟩],
      paginationInfo := none }
    [⟨some ⟨some "bGlzdGluZzo5ODc2NQ=="⟩⟩, ⟨none⟩]
    (by decide) rfl rfl rfl rfl
    ⟨⟨none⟩, by decide, Or.inl rfl⟩


lemma optStrParam_key {kv : String × String} {k : String} {v : Option String}
    (h : kv ∈ optStrParam k v) : kv.1 = k := by
  rcases v with _ | s
  · cases h
  · by_cases hs : s = ""
    · simp [optStrParam, hs] at h
    · simp [optStrParam, hs] at h
      simp [h]

lemma optNumParam_key {kv : String × String} {k : String} {v : Option Int}
    (h : kv ∈ optNumParam k v) : kv.1 = k := by
  rcases v with _ | nv
  · cases h
  · by_cases hz : nv = 0
    · simp [optNumParam, hz] at h
    · simp [optNumParam, hz] at h
      simp [h]

lemma guestParams_zero (a c i pe : String)
    (h : jsAdd (parseIntJS a) (parseIntJS c) = some 0) :
    guestParams a c i pe = [] := by
  unfold guestParams
  simp only []
  rw [if_neg]
  simp [jsGtZero, h]

lemma guestParams_pos (a c i pe : String) (n : Int)
    (h : jsAdd (parseIntJS a) (parseIntJS c) = some n) (hn : 0 < n) :
    guestParams a c i pe =
      [("adults", jsNumToString (parseIntJS a)),
       ("children", jsNumToString (parseIntJS c)),
       ("infants", jsNumToString (parseIntJS i)),
       ("pets", jsNumToString (parseIntJS pe))] := by
  unfold guestParams
  simp only []
  rw [if_pos]
  simp [jsGtZero, h, hn]

/-- C7: guest counts are coerced with `parseInt` before use; when the coerced
adult+child sum is zero, none of the four guest query parameters appears in
the constructed URL (search URL and listing URL — the latter is shared by
listing details, per-range price comparison, and cost breakdown); when the
sum is positive, all four appear, carrying the coerced values. -/
theorem guest_params_in_urls (p : SearchParams) (id : String)
    (ci co : Option String) (a c i pe : String) (n m : Int)
    (hs : jsAdd (parseIntJS p.adults) (parseIntJS p.children) = some n)
    (hl : jsAdd (parseIntJS a) (parseIntJS c) = some m) :
    ((n = 0 → ∀ kv ∈ (searchUrl p).params,
        kv.1 ≠ "adults" ∧ kv.1 ≠ "children" ∧ kv.1 ≠ "infants" ∧ kv.1 ≠ "pets") ∧
     (0 < n →
        ("adults", jsNumToString (parseIntJS p.adults)) ∈ (searchUrl p).params ∧
        ("children", jsNumToString (parseIntJS p.children)) ∈ (searchUrl p).params ∧
        ("infants", jsNumToString (parseIntJS p.infants)) ∈ (searchUrl p).params ∧
        ("pets", jsNumToString (parseIntJS p.pets)) ∈ (searchUrl p).params)) ∧
    ((m = 0 → ∀ kv ∈ (listingUrl id ci co a c i pe).params,
        kv.1 ≠ "adults" ∧ kv.1 ≠ "children" ∧ kv.1 ≠ "infants" ∧ kv.1 ≠ "pets") ∧
     (0 < m →
        ("adults", jsNumToString (parseIntJS a)) ∈ (listingUrl id ci co a c i pe).params ∧
        ("children", jsNumToString (parseIntJS c)) ∈ (listingUrl id ci co a c i pe).params ∧
        ("infants", jsNumToString (parseIntJS i)) ∈ (listingUrl id ci co a c i pe).params ∧
        ("pets", jsNumToString (parseIntJS pe)) ∈ (listingUrl id ci co a c i pe).params)) := by
  refine ⟨⟨?_, ?_⟩, ⟨?_, ?_⟩⟩
  · rintro rfl kv hkv
    rw [searchUrl] at hkv
    simp only [guestParams_zero p.adults p.children p.infants p.pets hs,
      List.append_nil, List.nil_append, List.mem_append] at hkv
    rcases hkv with ((((h | h) | h) | h) | h) | h
    all_goals first
      | (rw [optStrParam_key h]; exact ⟨by decide, by decide, by decide, by decide⟩)
      | (rw [optNumParam_key h]; exact ⟨by decide, by decide, by decide, by decide⟩)
  · intro hn
    rw [searchUrl]
    simp [guestParams_pos p.adults p.children p.infants p.pets n hs hn]
  · rintro rfl kv hkv
    rw [listingUrl] at hkv
    simp only [guestParams_zero a c i pe hl,
      List.append_nil, List.nil_append, List.mem_append] at hkv
    rcases hkv with h | h
    all_goals
      rw [optStrParam_key h]; exact ⟨by decide, by decide, by decide, by decide⟩
  · intro hm
    rw [listingUrl]
    simp [guestParams_pos a c i pe m hl hm]

/-- Witness for C7: a search call with adult and child counts summing to zero
carries no guest parameters; a listing URL with sum three carries all four. -/
theorem guest_params_in_urls_witness :
    (∀ kv ∈ (searchUrl { location := "NYC", adults := "0", children := "0" }).params,
        kv.1 ≠ "adults" ∧ kv.1 ≠ "children" ∧ kv.1 ≠ "infants" ∧ kv.1 ≠ "pets") ∧
    (("adults", "2") ∈ (listingUrl "7" none none "2" "1" "0" "0").params ∧
     ("children", "1") ∈ (listingUrl "7" none none "2" "1" "0" "0").params ∧
     ("infants", "0") ∈ (listingUrl "7" none none "2" "1" "0" "0").params ∧
     ("pets", "0") ∈ (listingUrl "7" none none "2" "1" "0" "0").params) :=
  ⟨(guest_params_in_urls { location := "NYC", adults := "0", children := "0" }
      "7" none none "2" "1" "0" "0" 0 3 (by decide) (by decide)).1.1 rfl,
   (guest_params_in_urls { location := "NYC", adults := "0", children := "0" }
      "7" none none "2" "1" "0" "0" 0 3 (by decide) (by decide)).2.2 (by decide)⟩

set_option maxRecDepth 8192 in
/-- C3 counterexample: a document whose HERO section holds 51 distinct photo
tiles makes the structured pass return 51 URLs — the 50-cap does not apply to
the structured pass (part_000 caps only the fallback img scan). -/
theorem photo_cap_counterexample :
    (let tiles := (List.range 51).map
        (fun i => PhotoTile.mk (some (Picture.mk [toString i])))
     let doc : PageDoc :=
       { script := ScriptData.parsed
           { stayProductDetailPage := some
               { sections := some
                   [{ sectionId := some "HERO_DEFAULT",
                      body := some { structuredDisplayData := some { photoTiles := some tiles } } }],
                 mediaItems := none },
             staysSearch := none },
         imgs := [] }
     (extractListingPhotosFull none true false (fun _ => Except.ok doc) "123").1.photoUrls.length = 51) := by
  decide

lemma fallbackStep_nodup_shape (acc : List String) (img : ImgEl) :
    fallbackStep acc img = acc ∨ ∃ u, u ∉ acc ∧ fallbackStep acc img = acc ++ [u] := by
  rcases fallbackStep_shape acc img with h | ⟨v, hv, _, he⟩
  · exact Or.inl h
  · exact Or.inr ⟨v, hv, he⟩

lemma fallbackStep_cap_shape (acc : List String) (img : ImgEl) :
    fallbackStep acc img = acc ∨
      (acc.length < 50 ∧ ∃ u, fallbackStep acc img = acc ++ [u]) := by
  rcases fallbackStep_shape acc img with h | ⟨v, _, hlen, he⟩
  · exact Or.inl h
  · exact Or.inr ⟨hlen, v, he⟩

lemma basicScanStep_nodup_shape (acc : List String) (img : ImgEl) :
    basicScanStep acc img = acc ∨ ∃ u, u ∉ acc ∧ basicScanStep acc img = acc ++ [u] := by
  rcases basicScanStep_shape acc img with h | ⟨v, hv, _, he⟩
  · exact Or.inl h
  · exact Or.inr ⟨v, hv, he⟩

lemma basicScanStep_cap_shape (acc : List String) (img : ImgEl) :
    basicScanStep acc img = acc ∨
      (acc.length < 50 ∧ ∃ u, basicScanStep acc img = acc ++ [u]) := by
  rcases basicScanStep_shape acc img with h | ⟨v, _, hlen, he⟩
  · exact Or.inl h
  · exact Or.inr ⟨hlen, v, he⟩

lemma structuredPhotos_nodup (doc : PageDoc) : (structuredPhotos doc).Nodup := by
  unfold structuredPhotos
  cases hs : doc.script with
  | parsed c =>
      cases hp : c.stayProductDetailPage with
      | none => simp [hp]
      | some pdp =>
          simp only [hp]
          exact foldl_nodup structuredStep structuredStep_shape _ [] (by simp)
  | missing => simp
  | empty => simp
  | malformed => simp

/-- C3 (amended): the extracted photo list is always duplicate-free in both
extractor variants; the 50-entry cap holds for the img-scan variant
unconditionally and for the JSON variant whenever the list came from the
fallback pass (empty structured pass) — the structured pass itself dedupes
but does not cap. -/
theorem photo_dedup_cap (gate : Option (String → Bool))
    (ign ignFlag : Bool) (world : World) (lid : String) :
    ((extractListingPhotosFull gate ign ignFlag world lid).1.photoUrls.Nodup ∧
     (∀ doc, world (BASE_URL ++ "/rooms/" ++ lid) = Except.ok doc →
        structuredPhotos doc = [] →
        (extractListingPhotosFull gate ign ignFlag world lid).1.photoUrls.length ≤ 50)) ∧
    ((extractListingPhotosBasic world lid).1.photoUrls.Nodup ∧
     (extractListingPhotosBasic world lid).1.photoUrls.length ≤ 50) := by
  refine ⟨⟨?_, ?_⟩, ?_, ?_⟩
  · unfold extractListingPhotosFull
    simp only []
    split
    · simp
    · cases h : world (BASE_URL ++ "/rooms/" ++ lid) with
      | error e => simp [h]
      | ok doc =>
          simp only [h]
          split
          · next hemp =>
              rw [List.isEmpty_iff] at hemp
              rw [hemp]
              exact foldl_nodup fallbackStep fallbackStep_nodup_shape _ [] (by simp)
          · exact structuredPhotos_nodup doc
  · intro doc hdoc hse
    unfold extractListingPhotosFull
    simp only []
    split
    · simp
    · simp only [hdoc]
      rw [if_pos (by simp [hse])]
      rw [hse]
      exact foldl_length_le fallbackStep 50 fallbackStep_cap_shape _ [] (by simp)
  · unfold extractListingPhotosBasic
    cases h : world (BASE_URL ++ "/rooms/" ++ lid) with
    | error e => simp [h]
    | ok doc =>
        simp only [h]
        exact foldl_nodup basicScanStep basicScanStep_nodup_shape _ [] (by simp)
  · unfold extractListingPhotosBasic
    cases h : world (BASE_URL ++ "/rooms/" ++ lid) with
    | error e => simp [h]
    | ok doc =>
        simp only [h]
        exact foldl_length_le basicScanStep 50 basicScanStep_cap_shape _ [] (by simp)

/-- Witness for the amended C3: a concrete document with a duplicated img
source yields a deduplicated, under-cap list from the fallback pass. -/
theorem photo_dedup_cap_witness :
    (let doc : PageDoc :=
       { script := ScriptData.missing,
         imgs := [⟨some "https://x.airbnb.com/a.jpg?s=1", none⟩,
                  ⟨some "https://x.airbnb.com/a.jpg?s=2", none⟩] }
     (extractListingPhotosFull none true false (fun _ => Except.ok doc) "5").1.photoUrls.Nodup ∧
     (extractListingPhotosFull none true false (fun _ => Except.ok doc) "5").1.photoUrls.length ≤ 50 ∧
     (extractListingPhotosFull none true false (fun _ => Except.ok doc) "5").1.photoUrls
        = ["https://x.airbnb.com/a.jpg"]) := by
  refine ⟨?_, ?_, by decide⟩
  · exact (photo_dedup_cap none true false _ "5").1.1
  · exact (photo_dedup_cap none true false _ "5").1.2 _ rfl (by decide)


lemma normStep_nodup_shape (acc : List String) (src : String) :
    normStep acc src = acc ∨ ∃ u, u ∉ acc ∧ normStep acc src = acc ++ [u] := by
  rcases normStep_shape acc src with h | ⟨v, hv, _, he⟩
  · exact Or.inl h
  · exact Or.inr ⟨v, hv, he⟩

lemma normStep_cap_shape (acc : List String) (src : String) :
    normStep acc src = acc ∨
      (acc.length < 50 ∧ ∃ u, normStep acc src = acc ++ [u]) := by
  rcases normStep_shape acc src with h | ⟨v, _, hlen, he⟩
  · exact Or.inl h
  · exact Or.inr ⟨hlen, v, he⟩

lemma takeWhile_idem {p : Char → Bool} (l : List Char) :
    (l.takeWhile p).takeWhile p = l.takeWhile p := by
  induction l with
  | nil => rfl
  | cons c t ih =>
      by_cases h : p c <;> simp [List.takeWhile_cons, h, ih]

lemma cleanUrl_idem (s : String) : cleanUrl (cleanUrl s) = cleanUrl s := by
  unfold cleanUrl
  simp only [String.toList]
  exact congrArg String.mk (takeWhile_idem _)

/-- Every element of the normalized list is the query-stripped form of some
input element and passed the extension test. -/
lemma mem_foldl_normStep : ∀ (l acc : List String) (u : String),
    u ∈ l.foldl normStep acc →
    u ∈ acc ∨ ∃ s ∈ l, u = cleanUrl s ∧ matchesExt (cleanUrl s) = true := by
  intro l
  induction l with
  | nil => intro acc u h; exact Or.inl h
  | cons s t ih =>
      intro acc u h
      rcases ih (normStep acc s) u h with hmem | ⟨s2, hs2, he, hm⟩
      · by_cases h1 : jsIncludes s "airbnb" = true ∧ acc.length < 50
        · by_cases h2 : ¬ acc.contains (cleanUrl s) = true ∧ matchesExt (cleanUrl s) = true
          · simp only [normStep, if_pos h1, if_pos h2, List.mem_append,
              List.mem_singleton] at hmem
            rcases hmem with h0 | rfl
            · exact Or.inl h0
            · exact Or.inr ⟨s, List.mem_cons_self s t, rfl, h2.2⟩
          · simp only [normStep, if_pos h1, if_neg h2] at hmem
            exact Or.inl hmem
        · simp only [normStep, if_neg h1] at hmem
          exact Or.inl hmem
      · exact Or.inr ⟨s2, List.mem_cons_of_mem s hs2, he, hm⟩

/-- Rebuilding: folding the normalization step over a list of already
normalized, marker-carrying, duplicate-free entries appends them verbatim. -/
lemma foldl_normStep_id : ∀ (l acc : List String),
    (∀ u ∈ l, jsIncludes u "airbnb" = true ∧ matchesExt u = true ∧ cleanUrl u = u) →
    (acc ++ l).Nodup → acc.length + l.length ≤ 50 →
    l.foldl normStep acc = acc ++ l := by
  intro l
  induction l with
  | nil => intro acc _ _ _; simp
  | cons u t ih =>
      intro acc hgood hnd hlen
      have hu := hgood u (List.mem_cons_self u t)
      have hnotmem : u ∉ acc := by
        rcases List.nodup_append.mp hnd with ⟨_, _, hdisj⟩
        intro hmem
        exact hdisj hmem (List.mem_cons_self u t)
      have hlt : acc.length < 50 := by
        simp only [List.length_cons] at hlen
        omega
      have hstep : normStep acc u = acc ++ [u] := by
        unfold normStep
        rw [if_pos ⟨hu.1, hlt⟩]
        simp only []
        rw [hu.2.2]
        rw [if_pos ⟨by simpa [List.elem_iff] using hnotmem, hu.2.1⟩]
      rw [List.foldl_cons, hstep]
      have hassoc : (acc ++ [u]) ++ t = acc ++ u :: t := by simp
      rw [ih (acc ++ [u]) (fun v hv => hgood v (List.mem_cons_of_mem _ hv))
        (by rw [hassoc]; exact hnd)
        (by simp only [List.length_append, List.length_singleton, List.length_cons,
              List.length_nil] at hlen ⊢; omega)]
      simp

/-- C8 counterexample: the normalization is not idempotent — a URL whose site
marker sits only in the query string survives the first pass (marker checked
on the raw source) but is dropped by a second pass (marker absent from the
stripped URL). -/
theorem normalize_not_idempotent_counterexample :
    normalizePhotoUrls (normalizePhotoUrls ["https://cdn.example/p.jpg?ref=airbnb"]) ≠
      normalizePhotoUrls ["https://cdn.example/p.jpg?ref=airbnb"] := by
  decide

/-- C8 (amended): the normalized list always holds each URL at most once (set
semantics) and at most 50 entries; re-applying the normalization yields the
same list provided every input URL still carries the site marker in its
query-stripped prefix (the counterexample shows idempotence fails when the
marker sits only in the query string). -/
theorem normalize_idempotent (l : List String) :
    (normalizePhotoUrls l).Nodup ∧
    (normalizePhotoUrls l).length ≤ 50 ∧
    ((∀ s ∈ l, jsIncludes (cleanUrl s) "airbnb" = true) →
      normalizePhotoUrls (normalizePhotoUrls l) = normalizePhotoUrls l) := by
  have hnd : (normalizePhotoUrls l).Nodup :=
    foldl_nodup normStep normStep_nodup_shape l [] (by simp)
  have hcap : (normalizePhotoUrls l).length ≤ 50 :=
    foldl_length_le normStep 50 normStep_cap_shape l [] (by simp)
  refine ⟨hnd, hcap, ?_⟩
  intro hmark
  have hgood : ∀ u ∈ normalizePhotoUrls l,
      jsIncludes u "airbnb" = true ∧ matchesExt u = true ∧ cleanUrl u = u := by
    intro u hu
    rcases mem_foldl_normStep l [] u hu with h0 | ⟨s2, hs2, rfl, hm⟩
    · cases h0
    · exact ⟨hmark s2 hs2, hm, cleanUrl_idem s2⟩
  have hid := foldl_normStep_id (normalizePhotoUrls l) [] hgood
    (by simpa using hnd) (by simpa using hcap)
  show List.foldl normStep [] (normalizePhotoUrls l) = normalizePhotoUrls l
  simpa using hid

/-- Witness for the amended C8: a URL list whose marker survives the query
strip normalizes idempotently. -/
theorem normalize_idempotent_witness :
    (normalizePhotoUrls ["https://x.airbnb.com/a.jpg?s=1", "https://x.airbnb.com/a.jpg?s=2"]).Nodup ∧
    (normalizePhotoUrls ["https://x.airbnb.com/a.jpg?s=1", "https://x.airbnb.com/a.jpg?s=2"]).length ≤ 50 ∧
    normalizePhotoUrls (normalizePhotoUrls
        ["https://x.airbnb.com/a.jpg?s=1", "https://x.airbnb.com/a.jpg?s=2"]) =
      normalizePhotoUrls ["https://x.airbnb.com/a.jpg?s=1", "https://x.airbnb.com/a.jpg?s=2"] :=
  ⟨(normalize_idempotent ["https://x.airbnb.com/a.jpg?s=1", "https://x.airbnb.com/a.jpg?s=2"]).1,
   (normalize_idempotent ["https://x.airbnb.com/a.jpg?s=1", "https://x.airbnb.com/a.jpg?s=2"]).2.1,
   (normalize_idempotent ["https://x.airbnb.com/a.jpg?s=1", "https://x.airbnb.com/a.jpg?s=2"]).2.2
     (by decide)⟩


/-- C4 counterexample: with a loaded, parsed policy that disallows
`/rooms/123` and no ignore flag set, the photoAnalyzer-based photo tool (which
consults no gate) still performs one page fetch and returns no policy error,
and a price comparison over a disallowed path returns an `isError = false`
envelope rather than a PolicyDenied failure. -/
theorem policy_denied_counterexample :
    (isPathAllowed (fun _ => some (fun _ => false)) "User-agent: *\nDisallow: /"
        "/rooms/123" = false) ∧
    ((handlePhotoAnalysisToolBasic "getListingPhotos" ⟨some "123", none⟩
        (fun _ => Except.ok ⟨ScriptData.missing, []⟩)).fetches = 1) ∧
    ((handlePhotoAnalysisToolBasic "getListingPhotos" ⟨some "123", none⟩
        (fun _ => Except.ok ⟨ScriptData.missing, []⟩)).errorMsg = none) ∧
    ((handlePriceComparison (fun _ => some (fun _ => false))
        "User-agent: *\nDisallow: /" (fun _ => Except.ok ⟨ScriptData.missing, []⟩)
        { id := "123", dateRanges := some [⟨some "a", some "b"⟩] }).isError = false) := by
  decide

/-- C4 (amended): with a loaded, parseable policy disallowing the target path
and neither ignore flag set: search, listing details, reviews and cost
breakdown return the robots failure envelope with zero page fetches; price
comparison performs zero fetches and fills every record with the robots error
but keeps an `isError = false` envelope; the gated photo extractor
(part_000) performs zero fetches and returns a robots error result. The
photoAnalyzer-based photo tools consult no gate and are exempted (see the
counterexample). -/
theorem policy_denied_no_fetch (lib : RobotsLib) (content : String) (world : World)
    (p : SearchParams) (lp : ListingParams) (rp : ReviewsParams) (cp : CostParams)
    (q : CompareParams) (ranges : List DateRange) (f : String → Bool) (lid : String) :
    (p.ignoreRobotsText = false →
      isPathAllowed lib content (searchUrl p).pathAndSearch = false →
      (handleAirbnbSearch lib content world p).isError = true ∧
      (handleAirbnbSearch lib content world p).fetches = 0 ∧
      (handleAirbnbSearch lib content world p).errorMsg = some robotsErrorMessage) ∧
    (lp.ignoreRobotsText = false →
      isPathAllowed lib content (listingUrl lp.id lp.checkin lp.checkout lp.adults
        lp.children lp.infants lp.pets).pathAndSearch = false →
      (handleAirbnbListingDetails lib content world lp).isError = true ∧
      (handleAirbnbListingDetails lib content world lp).fetches = 0 ∧
      (handleAirbnbListingDetails lib content world lp).errorMsg = some robotsErrorMessage) ∧
    (rp.ignoreRobotsText = false →
      isPathAllowed lib content (UrlT.mk ("/rooms/" ++ rp.id) []).pathAndSearch = false →
      (handleReviews lib content world rp).isError = true ∧
      (handleReviews lib content world rp).fetches = 0 ∧
      (handleReviews lib content world rp).errorMsg = some robotsErrorMessage) ∧
    (cp.ignoreRobotsText = false →
      isPathAllowed lib content (listingUrl cp.id cp.checkin cp.checkout cp.adults
        cp.children cp.infants cp.pets).pathAndSearch = false →
      (handleCostBreakdown lib content world cp).isError = true ∧
      (handleCostBreakdown lib content world cp).fetches = 0 ∧
      (handleCostBreakdown lib content world cp).errorMsg = some robotsErrorMessage) ∧
    (q.ignoreRobotsText = false → q.dateRanges = some ranges →
      (∀ r ∈ ranges, isPathAllowed lib content (listingUrl q.id r.checkin r.checkout
        q.adults q.children q.infants q.pets).pathAndSearch = false) →
      (handlePriceComparison lib content world q).fetches = 0 ∧
      (∀ entry ∈ (handlePriceComparison lib content world q).comparisons,
        entry.error = some robotsErrorMessage)) ∧
    (f ("/rooms/" ++ lid) = false →
      (extractListingPhotosFull (some f) false false world lid).2 = 0 ∧
      (extractListingPhotosFull (some f) false false world lid).1.error
        = some "Path disallowed by robots.txt") := by
  refine ⟨?_, ?_, ?_, ?_, ?_, ?_⟩
  · intro hig hden
    unfold handleAirbnbSearch
    rw [if_pos ⟨by simp [hig], by simp [hden]⟩]
    exact ⟨rfl, rfl, rfl⟩
  · intro hig hden
    unfold handleAirbnbListingDetails
    rw [if_pos ⟨by simp [hig], by simp [hden]⟩]
    exact ⟨rfl, rfl, rfl⟩
  · intro hig hden
    unfold handleReviews
    rw [if_pos ⟨by simp [hig], by simp [hden]⟩]
    exact ⟨rfl, rfl, rfl⟩
  · intro hig hden
    unfold handleCostBreakdown
    rw [if_pos ⟨by simp [hig], by simp [hden]⟩]
    exact ⟨rfl, rfl, rfl⟩
  · intro hig hdr hdeny
    cases ranges with
    | nil =>
        unfold handlePriceComparison
        rw [hdr]
        exact ⟨rfl, fun entry h => absurd h (by simp)⟩
    | cons r t =>
        have hcomp : handlePriceComparison lib content world q =
            { isError := false,
              fetches := (((r :: t).map (compareRange lib content world q.id q.adults
                q.children q.infants q.pets q.ignoreRobotsText)).map Prod.snd).sum,
              listingId := q.id,
              comparisons := ((r :: t).map (compareRange lib content world q.id q.adults
                q.children q.infants q.pets q.ignoreRobotsText)).map Prod.fst } := by
          unfold handlePriceComparison
          rw [hdr]
        constructor
        · rw [hcomp]
          apply List.sum_eq_zero
          intro x hx
          simp only [List.map_map, List.mem_map] at hx
          rcases hx with ⟨rg, hrg, rfl⟩
          exact ((compareRange_spec lib content world q.id q.adults q.children q.infants
            q.pets q.ignoreRobotsText rg).2.2.2.1 ⟨hig, hdeny rg hrg⟩).2
        · intro entry hentry
          rw [hcomp] at hentry
          simp only [List.map_map, List.mem_map] at hentry
          rcases hentry with ⟨rg, hrg, rfl⟩
          exact ((compareRange_spec lib content world q.id q.adults q.children q.infants
            q.pets q.ignoreRobotsText rg).2.2.2.1 ⟨hig, hdeny rg hrg⟩).1
  · intro hden
    unfold extractListingPhotosFull
    rw [if_pos (by simp [hden])]
    exact ⟨rfl, rfl⟩

/-- Witness for the amended C4 at a concrete deny-everything policy. -/
theorem policy_denied_no_fetch_witness :
    (let lib : RobotsLib := fun _ => some (fun _ => false)
     let content := "User-agent: *\nDisallow: /"
     let world : World := fun _ => Except.ok ⟨ScriptData.missing, []⟩
     ((handleAirbnbSearch lib content world { location := "NYC" }).isError = true ∧
      (handleAirbnbSearch lib content world { location := "NYC" }).fetches = 0 ∧
      (handleAirbnbSearch lib content world { location := "NYC" }).errorMsg
        = some robotsErrorMessage) ∧
     ((handlePriceComparison lib content world
        { id := "9", dateRanges := some [⟨some "a", some "b"⟩] }).fetches = 0) ∧
     ((extractListingPhotosFull (some (fun _ => false)) false false world "9").2 = 0)) := by
  refine ⟨?_, ?_, ?_⟩
  · exact (policy_denied_no_fetch (fun _ => some (fun _ => false))
      "User-agent: *\nDisallow: /" _ { location := "NYC" } { id := "9" } { id := "9" }
      { id := "9" } { id := "9", dateRanges := some [⟨some "a", some "b"⟩] }
      [⟨some "a", some "b"⟩] (fun _ => false) "9").1 rfl (by decide)
  · exact ((policy_denied_no_fetch (fun _ => some (fun _ => false))
      "User-agent: *\nDisallow: /" _ { location := "NYC" } { id := "9" } { id := "9" }
      { id := "9" } { id := "9", dateRanges := some [⟨some "a", some "b"⟩] }
      [⟨some "a", some "b"⟩] (fun _ => false) "9").2.2.2.2.1 rfl rfl
      (by decide)).1
  · exact ((policy_denied_no_fetch (fun _ => some (fun _ => false))
      "User-agent: *\nDisallow: /" _ { location := "NYC" } { id := "9" } { id := "9" }
      { id := "9" } { id := "9", dateRanges := some [⟨some "a", some "b"⟩] }
      [⟨some "a", some "b"⟩] (fun _ => false) "9").2.2.2.2.2 rfl).1

end AirbnbMcp
